import Mathlib

/-!
Verification of the URL-shortener backend request path.

The JavaScript sources are embedded shallowly:

* JS strings are Lean `String`; the string operations the code uses
  (`trim`, `toLowerCase`, `startsWith`, `slice`, `includes`, the two
  regexes) are re-implemented structurally over `String.data`.
* The MongoDB collections are association lists (`List ShortUrlRecord`,
  `List UserRecord`); every data-access function threads the store
  explicitly and returns `Except JsError α × Store`, so a thrown JS
  exception is `Except.error` and the store component shows exactly what
  was persisted.
* External libraries (nanoid, bcryptjs, jsonwebtoken, the WHATWG URL
  parser) are injected as function parameters of the operations that call
  them, exactly at the call sites the source has.
* Mongo-generated `_id` values and the user schema timestamps are outside
  the embedding; no claim mentions them.
-/

namespace UrlShortener

/-! ### JS string primitives -/

/-- Character class of JS `\s` as used by the code (ASCII whitespace). -/
def wsp (c : Char) : Bool := c.isWhitespace

/-- Drop leading and trailing whitespace from a character list. -/
def trimList (l : List Char) : List Char :=
  ((l.dropWhile wsp).reverse.dropWhile wsp).reverse

/-- JS `String.prototype.trim`. -/
def jsTrim (s : String) : String := ⟨trimList s.data⟩

/-- Lower-case a single character (ASCII, as JS `toLowerCase` acts on the
data of this app). -/
def lowerChar (c : Char) : Char :=
  if 'A' ≤ c ∧ c ≤ 'Z' then Char.ofNat (c.toNat + 32) else c

/-- JS `String.prototype.toLowerCase` (ASCII). -/
def jsLower (s : String) : String := ⟨s.data.map lowerChar⟩

/-- Substring search on character lists. -/
def containsSub (pat : List Char) : List Char → Bool
  | [] => pat.isEmpty
  | c :: cs => pat.isPrefixOf (c :: cs) || containsSub pat cs

/-- JS `String.prototype.includes`. -/
def strIncludes (s pat : String) : Bool := containsSub pat.data s.data

/-- JS `String.prototype.startsWith`. -/
def jsStartsWith (s pre : String) : Bool := pre.data.isPrefixOf s.data

/-- JS `String.prototype.slice(n)` (ASCII data, so code units = chars). -/
def jsSlice (n : Nat) (s : String) : String := ⟨s.data.drop n⟩

/-- JS `String.prototype.length` (ASCII data). -/
def jsLength (s : String) : Nat := s.data.length

/-- A character admissible in a custom slug: the class `[a-zA-Z0-9-_]`. -/
def isSlugChar (c : Char) : Bool :=
  decide (('a' ≤ c ∧ c ≤ 'z') ∨ ('A' ≤ c ∧ c ≤ 'Z') ∨ ('0' ≤ c ∧ c ≤ '9')
    ∨ c = '-' ∨ c = '_')

/-- The regex `/^[a-zA-Z0-9-_]+$/` of the custom-URL validators. -/
def slugRegexTest (s : String) : Bool :=
  !s.data.isEmpty && s.data.all isSlugChar

/-- A character allowed in an email segment: the class `[^\s@]`. -/
def emailSegChar (c : Char) : Bool := !wsp c && c != '@'

/-- Split a list at the first occurrence of `c`, dropping it. -/
def breakAt (c : Char) : List Char → Option (List Char × List Char)
  | [] => none
  | x :: t =>
    if x = c then some ([], t)
    else match breakAt c t with
      | none => none
      | some (a, b) => some (x :: a, b)

/-- Does the list contain a `.` that is neither its first element nor its
last?  (The decompositions `B ++ [.] ++ C` with `B, C` nonempty.) -/
def hasDotNotLast : List Char → Bool
  | [] => false
  | [_] => false
  | '.' :: _ :: _ => true
  | _ :: t => hasDotNotLast t

/-- Inner-dot test used by the email matcher: skips the head so the dot
has a nonempty part before it. -/
def hasInnerDot : List Char → Bool
  | [] => false
  | _ :: t => hasDotNotLast t

/-- Decision procedure for the regex `/^[^\s@]+@[^\s@]+\.[^\s@]+$/` used
by every email validation in the backend: the string must decompose as
`A ++ "@" ++ R` with `A` nonempty and free of whitespace and `@`, and `R`
free of whitespace and `@` and decomposable as `B ++ "." ++ C` with `B, C`
nonempty. -/
def emailRegexTest (s : String) : Bool :=
  match breakAt '@' s.data with
  | none => false
  | some (a, rest) =>
    !a.isEmpty && a.all emailSegChar && rest.all emailSegChar
      && hasInnerDot rest

/-! ### The error model

`src/BACKEND/src/utils/errorHandler.js` defines the `AppError` subclasses
(`BadRequestError` 400, `ConflictError` 409, `NotFoundError` 404,
`UnauthorizedError` 401).  A raw MongoDB duplicate-key rejection carries
`code === 11000` and is not an `AppError`; plain `new Error(...)` values
carry neither a `code` nor a `statusCode`. -/

inductive JsError where
  | BadRequestError (msg : String)
  | ConflictError (msg : String)
  | NotFoundError (msg : String)
  | UnauthorizedError (msg : String)
  /-- A raw MongoDB duplicate-key rejection (`error.code === 11000`,
  key pattern `short_url` or `email`). -/
  | MongoDuplicateKeyError (keyField : String)
  /-- A plain `new Error(msg)`. -/
  | JsGenericError (msg : String)
deriving Repr, DecidableEq

namespace JsError

/-- The JS `error.code` property (only Mongo errors have one). -/
def code : JsError → Option Nat
  | MongoDuplicateKeyError _ => some 11000
  | _ => none

/-- The JS `error.message` property. -/
def message : JsError → String
  | BadRequestError m => m
  | ConflictError m => m
  | NotFoundError m => m
  | UnauthorizedError m => m
  | MongoDuplicateKeyError _ => "E11000 duplicate key error"
  | JsGenericError m => m

/-- `error instanceof AppError`. -/
def isAppError : JsError → Bool
  | BadRequestError _ => true
  | ConflictError _ => true
  | NotFoundError _ => true
  | UnauthorizedError _ => true
  | _ => false

/-- The `statusCode` carried by an `AppError` subclass. -/
def statusCode : JsError → Nat
  | BadRequestError _ => 400
  | ConflictError _ => 409
  | NotFoundError _ => 404
  | UnauthorizedError _ => 401
  | _ => 500

end JsError

/-! ### The ShortLink collection

`src/BACKEND/src/models/shorturl.model.js`: fields `full_url` (required),
`short_url` (required, unique), `clicks` (default 0), `user` (optional
ObjectId).  The schema is declared without the `timestamps` option, so
documents carry no `createdAt`/`updatedAt` field. -/

structure ShortUrlRecord where
  full_url : String
  short_url : String
  clicks : Nat
  user : Option String
deriving Repr, DecidableEq

abbrev ShortUrlStore := List ShortUrlRecord

/-! ### ShortLink DAO (`src/BACKEND/src/dao/shortUrl.dao.js`) -/

/-- `validateSaveInputs(shortUrl, longUrl, userId)`: the first
`BadRequestError` produced, if any. -/
def validateSaveInputs (shortUrl longUrl : String) (userId : Option String) :
    Option JsError :=
  if jsTrim shortUrl = "" then
    some (.BadRequestError "Short URL is required and must be a non-empty string")
  else if jsTrim longUrl = "" then
    some (.BadRequestError "Long URL is required and must be a non-empty string")
  else
    match userId with
    | some u =>
      if jsTrim u = "" then
        some (.BadRequestError "User ID must be a non-empty string when provided")
      else none
    | none => none

/-- `newUrl.save()`: inserts the document built by `saveShortUrl`
(trimmed urls, `clicks` defaulted to 0 by the schema, `user` set only when
a truthy `userId` was given).  The unique index on `short_url` rejects a
duplicate with a raw Mongo `code: 11000` error and leaves the collection
unchanged. -/
def mongoSaveShortUrl (shortUrl longUrl : String) (userId : Option String)
    (store : ShortUrlStore) : Except JsError ShortUrlRecord × ShortUrlStore :=
  let newUrl : ShortUrlRecord :=
    { full_url := jsTrim longUrl
      short_url := jsTrim shortUrl
      clicks := 0
      user := userId.map jsTrim }
  if store.any (fun r => r.short_url = newUrl.short_url) then
    (.error (.MongoDuplicateKeyError "short_url"), store)
  else
    (.ok newUrl, store ++ [newUrl])

/-- The `catch` block of `saveShortUrl`: duplicate-key errors (on the
`short_url` key) become `ConflictError "Short URL already exists"`, custom
`BadRequestError`/`ConflictError` values are re-thrown as-is, and anything
else is wrapped in a generic `Database operation failed` error.  (The
`ValidationError`/`CastError` branches concern mongoose-internal error
objects that the embedded `save` never produces.) -/
def saveShortUrlCatch (e : JsError) : JsError :=
  if e.code = some 11000 then .ConflictError "Short URL already exists"
  else if e.isAppError then e
  else .JsGenericError ("Database operation failed: " ++ e.message)

/-- `saveShortUrl(shortUrl, longUrl, userId)`. -/
def saveShortUrl (shortUrl longUrl : String) (userId : Option String)
    (store : ShortUrlStore) : Except JsError ShortUrlRecord × ShortUrlStore :=
  match validateSaveInputs shortUrl longUrl userId with
  | some e => (.error (saveShortUrlCatch e), store)
  | none =>
    match mongoSaveShortUrl shortUrl longUrl userId store with
    | (.ok saved, store') => (.ok saved, store')
    | (.error e, store') => (.error (saveShortUrlCatch e), store')

/-- `urlSchema.findOneAndUpdate({short_url: code}, {$inc: {clicks: 1}},
{new: true})`: one atomic operation that finds the first match, increments
its `clicks` by 1 in place, and returns the updated document. -/
def findOneAndUpdateClicks (code : String) :
    ShortUrlStore → Option ShortUrlRecord × ShortUrlStore
  | [] => (none, [])
  | r :: rs =>
    if r.short_url = code then
      let r' : ShortUrlRecord := { r with clicks := r.clicks + 1 }
      (some r', r' :: rs)
    else
      let (res, rs') := findOneAndUpdateClicks code rs
      (res, r :: rs')

/-- The `catch` block of `getShortUrl`: `BadRequestError` is re-thrown
as-is, anything else is wrapped in a generic `Database query failed`
error.  (`CastError` is mongoose-internal and never produced here.) -/
def getShortUrlCatch (e : JsError) : JsError :=
  match e with
  | .BadRequestError _ => e
  | _ => .JsGenericError ("Database query failed: " ++ e.message)

/-- `getShortUrl(shortUrl)`: validates the code, then performs the single
find-and-increment; `none` models the JS `null` return for a miss. -/
def getShortUrl (shortUrl : String) (store : ShortUrlStore) :
    Except JsError (Option ShortUrlRecord) × ShortUrlStore :=
  if jsTrim shortUrl = "" then
    (.error (getShortUrlCatch
      (.BadRequestError "Short URL is required and must be a non-empty string")), store)
  else
    match findOneAndUpdateClicks (jsTrim shortUrl) store with
    | (none, store') => (.ok none, store')
    | (some url, store') =>
      if url.full_url = "" then
        (.error (getShortUrlCatch (.JsGenericError "Invalid URL data in database")), store')
      else
        (.ok (some url), store')

/-! ### Link service (`src/BACKEND/src/services/ShortUrl.service.js`)

`generateNanoId(7)` delegates to the external nanoid library; the
candidate stream is injected as `cands : Nat → String` (the value used on
attempt `i` is `cands i`). -/

/-- `validateServiceInputs(url, userId)`. -/
def validateServiceInputs (url : String) (userId : Option String) :
    Option JsError :=
  if url = "" then some (.BadRequestError "URL is required")
  else if jsTrim url = "" then
    some (.BadRequestError "URL must be a non-empty string")
  else
    match userId with
    | some u =>
      if jsTrim u = "" then
        some (.BadRequestError "User ID must be a non-empty string when provided")
      else none
    | none => none

/-- The `while (retryCount < maxRetries)` loop of
`createShortUrlServiceWithUserId`, with `maxRetries = 3`.  `fuel` is a
structural bound only: from the entry point (`retryCount = 0`,
`fuel = 3`) the loop always returns before fuel runs out, because the
recursive call requires `retryCount + 1 < 3`.  A falsy generated id
raises `Failed to generate short URL`; the catch block retries only when
`error.code === 11000` and the incremented retry count is still below the
bound, raises the exhaustion `ConflictError` once the bound is reached,
and otherwise re-throws the error unchanged. -/
def createShortUrlLoop (cands : Nat → String) (url userId : String) :
    Nat → Nat → ShortUrlStore → Except JsError String × ShortUrlStore
  | _, 0, store => (.ok "", store)
  | retryCount, fuel + 1, store =>
    if retryCount < 3 then
      let shortUrl := cands retryCount
      let attempt : Except JsError ShortUrlRecord × ShortUrlStore :=
        if shortUrl = "" then
          (.error (.JsGenericError "Failed to generate short URL"), store)
        else saveShortUrl shortUrl (jsTrim url) (some (jsTrim userId)) store
      match attempt with
      | (.ok _, store') => (.ok shortUrl, store')
      | (.error e, store') =>
        if e.code = some 11000 ∧ retryCount + 1 < 3 then
          createShortUrlLoop cands url userId (retryCount + 1) fuel store'
        else if retryCount + 1 ≥ 3 then
          (.error (.ConflictError
            "Unable to generate unique short URL after multiple attempts"), store')
        else (.error e, store')
    else (.ok "", store)

/-- `createShortUrlServiceWithUserId(url, userId)`.  The surrounding
`try/catch` only logs and re-throws, so it is the identity on outcomes. -/
def createShortUrlServiceWithUserId (cands : Nat → String)
    (url userId : String) (store : ShortUrlStore) :
    Except JsError String × ShortUrlStore :=
  match validateServiceInputs url (some userId) with
  | some e => (.error e, store)
  | none => createShortUrlLoop cands url userId 0 3 store

/-- The `catch` block of `createCustomShortUrlService`. -/
def createCustomCatch (customUrl : String) (e : JsError) : JsError :=
  match e with
  | .BadRequestError _ => e
  | .ConflictError _ => e
  | _ =>
    if e.code = some 11000 then
      .ConflictError ("The custom URL \"" ++ jsTrim customUrl
        ++ "\" is already taken. Please choose a different one.")
    else .JsGenericError ("Failed to create custom short URL: " ++ e.message)

/-- `createCustomShortUrlService(url, customUrl, userId)`: service-level
validation (regex before length), the `findOne` existence pre-check, then
`saveShortUrl(customUrlTrimmed, url.trim(), userId)`. -/
def createCustomShortUrlService (url customUrl userId : String)
    (store : ShortUrlStore) : Except JsError String × ShortUrlStore :=
  match validateServiceInputs url (some userId) with
  | some e => (.error e, store)
  | none =>
    if jsTrim customUrl = "" then
      (.error (.BadRequestError
        "Custom URL is required and must be a non-empty string"), store)
    else
      let customUrlTrimmed := jsTrim customUrl
      if !slugRegexTest customUrlTrimmed then
        (.error (.BadRequestError
          "Custom URL can only contain letters, numbers, hyphens, and underscores"), store)
      else if jsLength customUrlTrimmed < 3 ∨ 50 < jsLength customUrlTrimmed then
        (.error (.BadRequestError
          "Custom URL must be between 3 and 50 characters long"), store)
      else if store.any (fun r => r.short_url = customUrlTrimmed) then
        (.error (.ConflictError ("The custom URL \"" ++ customUrlTrimmed
          ++ "\" is already taken. Please choose a different one.")), store)
      else
        match saveShortUrl customUrlTrimmed (jsTrim url) (some userId) store with
        | (.ok _, store') => (.ok customUrlTrimmed, store')
        | (.error e, store') => (.error (createCustomCatch customUrl e), store')

/-- The shape the service maps each document to for the frontend.  (The
Mongo-generated `_id` it also copies is outside the embedding.) -/
structure TransformedUrl where
  shortUrl : String
  originalUrl : String
  customUrl : String
  clicks : Nat
  createdAt : String
deriving Repr, DecidableEq

/-- `getUserUrlsService(userId)`.  `appUrl` is `process.env.APP_URL`
(`http://localhost:3000/` when unset) and `now` is the value of
`new Date().toISOString()` at the time of the call.  The query sorts on
`{createdAt: -1}`, but the ShortLink schema is declared without
timestamps, so no document has a `createdAt` key: the sort keys are all
absent (leaving the find order), and the transform's
`url.createdAt || url.created_at || new Date().toISOString()` always
falls through to the current time. -/
def getUserUrlsService (appUrl : Option String) (now : String)
    (userId : String) (store : ShortUrlStore) :
    Except JsError (List TransformedUrl) × ShortUrlStore :=
  if jsTrim userId = "" then
    (.error (.BadRequestError "Valid user ID is required"), store)
  else
    let urls := store.filter (fun r => r.user = some (jsTrim userId))
    let transformedUrls := urls.map (fun url =>
      { shortUrl := (appUrl.getD "http://localhost:3000/") ++ url.short_url
        originalUrl := url.full_url
        customUrl := url.short_url
        clicks := url.clicks
        createdAt := now : TransformedUrl })
    (.ok transformedUrls, store)

/-! ### HTTP layer (`src/BACKEND/src/controllers/shortUrl.controller.js`,
`src/BACKEND/src/utils/errorHandler.js`) -/

/-- The observable part of an Express response: status, the headers set
via `res.set`, the redirect target of `res.redirect`, and the JSON error
message when one is sent. -/
structure HttpResponse where
  status : Nat
  headers : List (String × String)
  location : Option String
  message : Option String
deriving Repr, DecidableEq

/-- The `errorHandler` middleware: an `AppError` maps to its own
`statusCode` and message; anything else maps to 500. -/
def errorHandlerResponse (e : JsError) : HttpResponse :=
  if e.isAppError then
    { status := e.statusCode, headers := [], location := none
      message := some e.message }
  else
    { status := 500, headers := [], location := none
      message := some e.message }

/-- `redirectFromShortUrl(req, res, next)` on `GET /:id`: validates the
path segment, runs the DAO find-and-increment, 404s on a miss, and on a
hit sets the three cache-disabling headers and issues
`res.redirect(302, url.full_url)`.  Thrown errors go to `next(error)`,
i.e. to `errorHandler`. -/
def redirectFromShortUrl (id : String) (store : ShortUrlStore) :
    HttpResponse × ShortUrlStore :=
  if id = "" then
    (errorHandlerResponse (.BadRequestError "Short URL ID is required"), store)
  else if jsTrim id = "" then
    (errorHandlerResponse (.BadRequestError "Invalid short URL ID format"), store)
  else
    match getShortUrl (jsTrim id) store with
    | (.error e, store') => (errorHandlerResponse e, store')
    | (.ok none, store') =>
      (errorHandlerResponse (.NotFoundError "Short URL not found"), store')
    | (.ok (some url), store') =>
      if url.full_url = "" then
        (errorHandlerResponse (.JsGenericError "Invalid URL data in database"), store')
      else
        ({ status := 302
           headers :=
             [("Cache-Control", "no-cache, no-store, must-revalidate"),
              ("Pragma", "no-cache"),
              ("Expires", "0")]
           location := some url.full_url
           message := none }, store')

/-- The reserved-word list of the custom-create controller. -/
def reservedWords : List String :=
  ["api", "admin", "www", "app", "create", "custom", "user", "auth",
   "login", "signup", "register"]

/-- `validateUrl(url)` of the controller.  `urlOk` injects the external
WHATWG parser behind `new URL(url)`. -/
def validateUrl (urlOk : String → Bool) (url : String) : Option JsError :=
  if url = "" then some (.BadRequestError "URL is required")
  else if !urlOk url then some (.BadRequestError "Invalid URL format")
  else none

/-- `createCustomShortUrl(req, res, next)` — the controller half of the
custom-create operation: URL validation, slug presence, trim, length,
regex, lowercased reserved-word membership, then the service call with
the trimmed slug.  The result is the service outcome (the success JSON
envelope carries the returned slug). -/
def createCustomShortUrl (urlOk : String → Bool)
    (url customUrl userId : String) (store : ShortUrlStore) :
    Except JsError String × ShortUrlStore :=
  match validateUrl urlOk url with
  | some e => (.error e, store)
  | none =>
    if customUrl = "" then
      (.error (.BadRequestError "Custom URL is required and must be a string"), store)
    else
      let trimmedCustomUrl := jsTrim customUrl
      if jsLength trimmedCustomUrl < 3 ∨ 50 < jsLength trimmedCustomUrl then
        (.error (.BadRequestError
          "Custom URL must be between 3 and 50 characters long"), store)
      else if !slugRegexTest trimmedCustomUrl then
        (.error (.BadRequestError
          "Custom URL can only contain letters, numbers, hyphens, and underscores"), store)
      else if reservedWords.contains (jsLower trimmedCustomUrl) then
        (.error (.BadRequestError
          "This custom URL is reserved and cannot be used"), store)
      else if userId = "" then
        (.error (.JsGenericError "User authentication failed"), store)
      else
        createCustomShortUrlService url trimmedCustomUrl userId store

/-- Spec-side predicate for the custom-slug admission rule, written
against the trimmed slug: length in `[3,50]`, shape `[a-zA-Z0-9-_]+`, and
the lowercased slug outside the reserved-word list.  (Used to state the
claim about `createCustomShortUrl`; the executable checks live in that
controller and `createCustomShortUrlService`.) -/
def validSlug (s : String) : Prop :=
  3 ≤ jsLength s ∧ jsLength s ≤ 50 ∧ slugRegexTest s = true ∧
    reservedWords.contains (jsLower s) = false

instance (s : String) : Decidable (validSlug s) := by
  unfold validSlug
  infer_instance

/-! ### The User collection (`src/BACKEND/src/models/user.model.js`)

Fields `name` (required), `email` (required, unique), `password`
(required, stores the bcrypt hash), `avatar` (defaulted from the name via
the dicebear URL). -/

structure UserRecord where
  name : String
  email : String
  password : String
  avatar : String
deriving Repr, DecidableEq

abbrev UserStore := List UserRecord

/-- `findUserByEmail(email)` (`src/BACKEND/src/dao/user.dao.js`):
validates, then `User.findOne({email: email.trim().toLowerCase()})`;
`none` models the JS `null` for a miss.  Read-only. -/
def findUserByEmail (email : String) (users : UserStore) :
    Except JsError (Option UserRecord) :=
  if jsTrim email = "" then
    .error (.BadRequestError "Email is required and must be a non-empty string")
  else if !emailRegexTest (jsTrim email) then
    .error (.BadRequestError "Invalid email format")
  else
    .ok (users.find? (fun u => u.email = jsLower (jsTrim email)))

/-! ### Auth service (`src/BACKEND/src/services/auth.service.js`)

bcrypt and jsonwebtoken are external: `hash` injects the composition
`bcrypt.hash(password, await bcrypt.genSalt(12))`, `compare` injects
`bcrypt.compare`, and `sign` injects `signToken` (whose payload fields
beyond the Mongo `_id` are the user's email and name). -/

structure TokenPayload where
  email : String
  name : String
deriving Repr, DecidableEq

/-- The registration response: `savedUser.toObject()` with the `password`
property deleted and the token added. -/
structure RegisterResponse where
  name : String
  email : String
  avatar : String
  token : String
deriving Repr, DecidableEq

/-- The `catch` block of `registerUserService`: `BadRequestError` as-is,
duplicate-key as the same already-exists `BadRequestError`, anything else
wrapped generically. -/
def registerCatch (e : JsError) : JsError :=
  match e with
  | .BadRequestError _ => e
  | _ =>
    if e.code = some 11000 then
      .BadRequestError "User with this email already exists"
    else .JsGenericError ("User registration failed: " ++ e.message)

/-- `new User({...}).save()` for registration: the unique index on
`email` rejects duplicates with a raw Mongo `code: 11000` error. -/
def mongoSaveUser (newUser : UserRecord) (users : UserStore) :
    Except JsError UserRecord × UserStore :=
  if users.any (fun u => u.email = newUser.email) then
    (.error (.MongoDuplicateKeyError "email"), users)
  else
    (.ok newUser, users ++ [newUser])

/-- `registerUserService(name, email, password)`. -/
def registerUserService (hash : String → String)
    (sign : TokenPayload → String) (name email password : String)
    (users : UserStore) : Except JsError RegisterResponse × UserStore :=
  if jsTrim name = "" then
    (.error (.BadRequestError "Name is required and must be a non-empty string"), users)
  else if jsTrim email = "" then
    (.error (.BadRequestError "Email is required and must be a non-empty string"), users)
  else if jsLength password < 6 then
    (.error (.BadRequestError
      "Password is required and must be at least 6 characters long"), users)
  else if !emailRegexTest (jsTrim email) then
    (.error (.BadRequestError "Please provide a valid email address"), users)
  else
    match findUserByEmail (jsTrim email) users with
    | .error e => (.error (registerCatch e), users)
    | .ok (some _) =>
      (.error (.BadRequestError "User with this email already exists"), users)
    | .ok none =>
      let hashedPassword := hash password
      if hashedPassword = "" then
        (.error (registerCatch (.JsGenericError "Failed to process password")), users)
      else
        let newUser : UserRecord :=
          { name := jsTrim name
            email := jsLower (jsTrim email)
            password := hashedPassword
            avatar := "https://api.dicebear.com/7.x/initials/svg?seed="
              ++ jsTrim name }
        let token := sign { email := newUser.email, name := newUser.name }
        if token = "" then
          (.error (registerCatch
            (.JsGenericError "Failed to generate authentication token")), users)
        else
          match mongoSaveUser newUser users with
          | (.error e, users') => (.error (registerCatch e), users')
          | (.ok savedUser, users') =>
            (.ok { name := savedUser.name
                   email := savedUser.email
                   avatar := savedUser.avatar
                   token := token }, users')

/-- The login response: the user object without the password, the token,
and `loginTime = new Date().toISOString()` (injected as `now`). -/
structure LoginResponse where
  name : String
  email : String
  avatar : String
  token : String
  loginTime : String
deriving Repr, DecidableEq

/-- The `catch` block of `loginUserService`. -/
def loginCatch (e : JsError) : JsError :=
  match e with
  | .BadRequestError _ => e
  | _ => .JsGenericError ("User login failed: " ++ e.message)

/-- `loginUserService(email, password)`: the lookup by
`email.trim().toLowerCase()` and the hash comparison both fail with the
same generic `Invalid email or password` message. -/
def loginUserService (compare : String → String → Bool)
    (sign : TokenPayload → String) (now : String) (email password : String)
    (users : UserStore) : Except JsError LoginResponse :=
  if jsTrim email = "" then
    .error (.BadRequestError "Email is required and must be a non-empty string")
  else if password = "" then
    .error (.BadRequestError "Password is required")
  else if !emailRegexTest (jsTrim email) then
    .error (.BadRequestError "Please provide a valid email address")
  else
    match findUserByEmail (jsLower (jsTrim email)) users with
    | .error e => .error (loginCatch e)
    | .ok none => .error (.BadRequestError "Invalid email or password")
    | .ok (some user) =>
      if !compare password user.password then
        .error (.BadRequestError "Invalid email or password")
      else
        let token := sign { email := user.email, name := user.name }
        if token = "" then
          .error (loginCatch
            (.JsGenericError "Failed to generate authentication token"))
        else
          .ok { name := user.name
                email := user.email
                avatar := user.avatar
                token := token
                loginTime := now }

/-! ### Auth controllers (`src/BACKEND/src/controllers/auth.controller.js`) -/

/-- The JSON envelope a controller sends: HTTP status plus either the
success payload or the error message and error code. -/
inductive ApiResult (α : Type) where
  | success (status : Nat) (data : α) (message : String)
  | failure (status : Nat) (message : String) (errorCode : String)
deriving Repr, DecidableEq

/-- The status-mapping `catch` block of the `registerUser` controller. -/
def registerUserErrorResponse (e : JsError) : ApiResult RegisterResponse :=
  if strIncludes e.message "already exists" then
    .failure 409 e.message "USER_ALREADY_EXISTS"
  else if strIncludes e.message "required" || strIncludes e.message "invalid" then
    .failure 400 e.message "INVALID_INPUT"
  else if e.isAppError then
    .failure e.statusCode e.message "SERVICE_ERROR"
  else
    .failure 500 e.message "INTERNAL_SERVER_ERROR"

/-- `registerUser(req, res)` on `POST /api/auth/register` (body present). -/
def registerUser (hash : String → String) (sign : TokenPayload → String)
    (name email password : String) (users : UserStore) :
    ApiResult RegisterResponse × UserStore :=
  match registerUserService hash sign name email password users with
  | (.ok user, users') =>
    (.success 201 user "User registered successfully", users')
  | (.error e, users') => (registerUserErrorResponse e, users')

/-- The status-mapping `catch` block of the `loginUser` controller. -/
def loginUserErrorResponse (e : JsError) : ApiResult LoginResponse :=
  if strIncludes e.message "Invalid email or password" then
    .failure 401 e.message "INVALID_CREDENTIALS"
  else if strIncludes e.message "required" || strIncludes e.message "invalid" then
    .failure 400 e.message "INVALID_INPUT"
  else if e.isAppError then
    .failure e.statusCode e.message "SERVICE_ERROR"
  else
    .failure 500 e.message "INTERNAL_SERVER_ERROR"

/-- `loginUser(req, res)` on `POST /api/auth/login` (body present). -/
def loginUser (compare : String → String → Bool)
    (sign : TokenPayload → String) (now : String) (email password : String)
    (users : UserStore) : ApiResult LoginResponse :=
  match loginUserService compare sign now email password users with
  | .ok result => .success 200 result "User logged in successfully"
  | .error e => loginUserErrorResponse e

/-! ### Authentication gate (`src/BACKEND/src/middleware/auth.middleware.js`) -/

/-- The claims `jwt.verify` yields: id, email, name, issued-at, expiry.
Truthiness of the string fields models the JS `!decoded.id` checks. -/
structure DecodedToken where
  id : String
  email : String
  name : String
  iat : Nat
  exp : Nat
deriving Repr, DecidableEq

/-- The identity `authMiddleware` attaches to `req.user`. -/
structure AttachedUser where
  id : String
  email : String
  name : String
  tokenIat : Nat
  tokenExp : Nat
deriving Repr, DecidableEq

/-- Outcome of the authentication gate: a 401 rejection (message and
error code) or the request proceeding with the attached identity. -/
inductive AuthResult where
  | reject (message : String) (errorCode : String)
  | proceed (user : AttachedUser)
deriving Repr, DecidableEq

/-- JS `a || b` on the two token sources (an empty string is falsy). -/
def jsOrString : Option String → Option String → Option String
  | some s, b => if s = "" then b else some s
  | none, b => b

/-- The `catch` block of `authMiddleware`: every thrown error becomes a
401 whose message/code depend on substrings of the error message. -/
def authMiddlewareCatch (e : JsError) : AuthResult :=
  if strIncludes e.message "expired" then
    .reject "Your session has expired. Please log in again." "TOKEN_EXPIRED"
  else if strIncludes e.message "invalid" then
    .reject "Invalid authentication token. Please log in again." "INVALID_TOKEN"
  else if strIncludes e.message "malformed" then
    .reject "Malformed authentication token. Please log in again." "MALFORMED_TOKEN"
  else
    .reject "Authentication failed. Please log in again." "AUTHENTICATION_FAILED"

/-- `authMiddleware(req, res, next)`.  `verifyTok` injects `verifyToken`
(the jsonwebtoken wrapper; a thrown verification error is
`Except.error`).  The token is the `Authorization` header when truthy,
else the `token` cookie; a `Bearer ` prefix is stripped when present. -/
def authMiddleware (verifyTok : String → Except JsError DecodedToken)
    (users : UserStore) (authHeader cookieToken : Option String) :
    AuthResult :=
  let token0 := jsOrString authHeader cookieToken
  let token : Option String :=
    match token0 with
    | some t => if jsStartsWith t "Bearer " then some (jsSlice 7 t) else some t
    | none => none
  match token with
  | none =>
    .reject "Authentication required. Please log in to access this resource."
      "NO_TOKEN_PROVIDED"
  | some t =>
    if t = "" then
      .reject "Authentication required. Please log in to access this resource."
        "NO_TOKEN_PROVIDED"
    else
      match verifyTok t with
      | .error e => authMiddlewareCatch e
      | .ok decoded =>
        if decoded.id = "" ∨ decoded.email = "" then
          .reject "Invalid authentication token. Please log in again."
            "INVALID_TOKEN"
        else
          match findUserByEmail decoded.email users with
          | .error e => authMiddlewareCatch e
          | .ok none =>
            .reject "User account not found. Please log in again."
              "USER_NOT_FOUND"
          | .ok (some user) =>
            .proceed
              { id := decoded.id
                email := decoded.email
                name := if decoded.name = "" then user.name else decoded.name
                tokenIat := decoded.iat
                tokenExp := decoded.exp }

/-! ### Helper lemmas about the string primitives -/

theorem dropWhile_wsp_of_head (l : List Char)
    (h : ∀ a, l.head? = some a → wsp a = false) :
    l.dropWhile wsp = l := by
  cases l with
  | nil => rfl
  | cons a t =>
    rw [List.dropWhile_cons, h a rfl]
    simp

theorem trimList_head? (l : List Char) :
    ∀ a, (trimList l).head? = some a → wsp a = false := by
  intro a ha
  unfold trimList at ha
  rw [List.head?_reverse] at ha
  have hne : ((l.dropWhile wsp).reverse.dropWhile wsp) ≠ [] := by
    intro h
    rw [h] at ha
    simp at ha
  have h1 := @List.getLast?_append_of_ne_nil Char
    ((l.dropWhile wsp).reverse.takeWhile wsp)
    ((l.dropWhile wsp).reverse.dropWhile wsp) hne
  rw [List.takeWhile_append_dropWhile, List.getLast?_reverse, ha] at h1
  have h2 := List.head?_dropWhile_not wsp l
  rw [h1] at h2
  exact h2

theorem trimList_getLast? (l : List Char) :
    ∀ a, (trimList l).getLast? = some a → wsp a = false := by
  intro a ha
  unfold trimList at ha
  rw [List.getLast?_reverse] at ha
  have h2 := List.head?_dropWhile_not wsp (l.dropWhile wsp).reverse
  rw [ha] at h2
  exact h2

theorem trimList_idem (l : List Char) : trimList (trimList l) = trimList l := by
  have h1 : (trimList l).dropWhile wsp = trimList l :=
    dropWhile_wsp_of_head _ (trimList_head? l)
  have h2 : (trimList l).reverse.dropWhile wsp = (trimList l).reverse := by
    apply dropWhile_wsp_of_head
    intro a ha
    rw [List.head?_reverse] at ha
    exact trimList_getLast? l a ha
  show ((((trimList l).dropWhile wsp).reverse.dropWhile wsp)).reverse = trimList l
  rw [h1, h2, List.reverse_reverse]

/-- `trim` is idempotent: re-trimming an already-trimmed string is a
no-op (several call chains in the backend trim twice). -/
theorem jsTrim_idem (s : String) : jsTrim (jsTrim s) = jsTrim s :=
  congrArg String.mk (trimList_idem s.data)

theorem jsTrim_empty : jsTrim "" = "" := rfl

theorem ne_empty_of_jsTrim_ne_empty {s : String} (h : jsTrim s ≠ "") : s ≠ "" := by
  intro hs
  rw [hs] at h
  exact h jsTrim_empty

/-! ### Characterization lemmas for the DAO and the link service -/

theorem validateSaveInputs_badRequest {s l : String} {u : Option String}
    {e : JsError} (h : validateSaveInputs s l u = some e) :
    ∃ m, e = .BadRequestError m := by
  unfold validateSaveInputs at h
  repeat' split at h
  all_goals first
    | exact ⟨_, (Option.some.inj h).symm⟩
    | simp at h

theorem validateServiceInputs_badRequest {url : String} {u : Option String}
    {e : JsError} (h : validateServiceInputs url u = some e) :
    ∃ m, e = .BadRequestError m := by
  unfold validateServiceInputs at h
  repeat' split at h
  all_goals first
    | exact ⟨_, (Option.some.inj h).symm⟩
    | simp at h

/-- Total characterization of `saveShortUrl`: it either rejects the input
with a `BadRequestError` leaving the store unchanged, reports the
duplicate as `ConflictError "Short URL already exists"` leaving the store
unchanged, or appends exactly the new document. -/
theorem saveShortUrl_cases (s l : String) (u : Option String)
    (store : ShortUrlStore) :
    (∃ m, saveShortUrl s l u store = (.error (.BadRequestError m), store)) ∨
    (saveShortUrl s l u store =
      (.error (.ConflictError "Short URL already exists"), store)) ∨
    (saveShortUrl s l u store =
        (.ok ⟨jsTrim l, jsTrim s, 0, u.map jsTrim⟩,
         store ++ [⟨jsTrim l, jsTrim s, 0, u.map jsTrim⟩]) ∧
      ∀ r ∈ store, r.short_url ≠ jsTrim s) := by
  unfold saveShortUrl
  cases hv : validateSaveInputs s l u with
  | some e =>
    obtain ⟨m, rfl⟩ := validateSaveInputs_badRequest hv
    exact .inl ⟨m, rfl⟩
  | none =>
    unfold mongoSaveShortUrl
    by_cases hdup :
        store.any (fun r => r.short_url = jsTrim s) = true
    · refine .inr (.inl ?_)
      simp only [hdup, if_true]
      rfl
    · refine .inr (.inr ⟨?_, ?_⟩)
      · simp only [hdup, if_false]
        rfl
      · intro r hr
        simp only [List.any_eq_true, not_exists, not_and] at hdup
        have := hdup r hr
        simpa using this

/-- Every error `saveShortUrl` can produce has no Mongo `code` property
(the raw `11000` rejection is consumed by its own `catch`), is not the
retry-exhaustion `ConflictError`, and leaves the store unchanged. -/
theorem saveShortUrl_error_shape {s l : String} {u : Option String}
    {store store₂ : ShortUrlStore} {e : JsError}
    (h : saveShortUrl s l u store = (.error e, store₂)) :
    e.code = none ∧
    e ≠ .ConflictError "Unable to generate unique short URL after multiple attempts" ∧
    store₂ = store := by
  rcases saveShortUrl_cases s l u store with ⟨m, hc⟩ | hc | ⟨hc, -⟩ <;>
    rw [hc] at h
  · simp only [Prod.mk.injEq, Except.error.injEq] at h
    obtain ⟨rfl, rfl⟩ := h
    refine ⟨rfl, ?_, rfl⟩
    intro hcontra
    cases hcontra
  · simp only [Prod.mk.injEq, Except.error.injEq] at h
    obtain ⟨rfl, rfl⟩ := h
    refine ⟨rfl, ?_, rfl⟩
    intro hcontra
    injection hcontra with hm
    exact absurd hm (by decide)
  · simp at h

theorem validateSaveInputs_none {s l : String} {u : Option String}
    (h : validateSaveInputs s l u = none) : jsTrim s ≠ "" ∧ jsTrim l ≠ "" := by
  unfold validateSaveInputs at h
  by_cases h1 : jsTrim s = ""
  · rw [if_pos h1] at h
    cases h
  · rw [if_neg h1] at h
    by_cases h2 : jsTrim l = ""
    · rw [if_pos h2] at h
      cases h
    · exact ⟨h1, h2⟩

theorem saveShortUrl_ok_valid {s l : String} {u : Option String}
    {store store₂ : ShortUrlStore} {rec : ShortUrlRecord}
    (h : saveShortUrl s l u store = (.ok rec, store₂)) :
    jsTrim s ≠ "" ∧ jsTrim l ≠ "" := by
  unfold saveShortUrl at h
  cases hv : validateSaveInputs s l u with
  | some e => rw [hv] at h; simp at h
  | none => exact validateSaveInputs_none hv

/-- The generation loop, entered at `retryCount = 0`, can only succeed on
its first attempt (the DAO never surfaces a `code: 11000` error, so the
retry branch is dead): success means the first candidate was accepted and
persisted into the original store. -/
theorem createShortUrlLoop_zero_ok (cands : Nat → String) (url uid : String)
    (store : ShortUrlStore) (c : String) (store₂ : ShortUrlStore)
    (h : createShortUrlLoop cands url uid 0 3 store = (.ok c, store₂)) :
    c = cands 0 ∧ cands 0 ≠ "" ∧
      saveShortUrl (cands 0) (jsTrim url) (some (jsTrim uid)) store =
        (.ok ⟨jsTrim (jsTrim url), jsTrim (cands 0), 0,
              some (jsTrim (jsTrim uid))⟩,
         store₂) ∧
      ∀ r ∈ store, r.short_url ≠ jsTrim (cands 0) := by
  rw [createShortUrlLoop] at h
  simp only [show ((0:Nat) < 3) = True by simp, if_true] at h
  by_cases hc : cands 0 = ""
  · simp [hc, JsError.code] at h
  · rcases saveShortUrl_cases (cands 0) (jsTrim url) (some (jsTrim uid)) store
      with ⟨m, hs⟩ | hs | ⟨hs, hnone⟩
    · simp [hc, hs, JsError.code] at h
    · simp [hc, hs, JsError.code] at h
    · rw [if_neg hc, hs] at h
      simp only [Prod.mk.injEq, Except.ok.injEq] at h
      obtain ⟨rfl, rfl⟩ := h
      exact ⟨rfl, hc, hs.trans (by rfl), hnone⟩

/-- The exhaustion branch of the generation loop is dead code from the
entry point: because no DAO error carries `code: 11000`, the loop never
retries, so it can never reach the retry bound. -/
theorem createShortUrlLoop_zero_not_exhausted (cands : Nat → String)
    (url uid : String) (store : ShortUrlStore) :
    (createShortUrlLoop cands url uid 0 3 store).1 ≠
      .error (.ConflictError
        "Unable to generate unique short URL after multiple attempts") := by
  rw [createShortUrlLoop]
  simp only [show ((0:Nat) < 3) = True by simp, if_true]
  by_cases hc : cands 0 = ""
  · simp [hc, JsError.code]
  · rcases saveShortUrl_cases (cands 0) (jsTrim url) (some (jsTrim uid)) store
      with ⟨m, hs⟩ | hs | ⟨hs, -⟩
    · simp [hc, hs, JsError.code]
    · rw [if_neg hc, hs]
      norm_num [JsError.code]
      rw [if_neg (show ¬((none : Option Nat) = some 11000) by simp)]
      intro hcontra
      simp only [Except.error.injEq, JsError.ConflictError.injEq] at hcontra
      exact absurd hcontra (by decide)
    · simp [hc, hs]

/-- Success inversion for `createShortUrlServiceWithUserId`: the returned
code is the first generated candidate, and the store gains exactly the
one new document. -/
theorem createShortUrlServiceWithUserId_ok {cands : Nat → String}
    {url uid c : String} {store store₂ : ShortUrlStore}
    (h : createShortUrlServiceWithUserId cands url uid store = (.ok c, store₂)) :
    c = cands 0 ∧ jsTrim c ≠ "" ∧ jsTrim url ≠ "" ∧
    store₂ = store ++ [⟨jsTrim url, jsTrim c, 0, some (jsTrim uid)⟩] ∧
    ∀ r ∈ store, r.short_url ≠ jsTrim c := by
  unfold createShortUrlServiceWithUserId at h
  cases hv : validateServiceInputs url (some uid) with
  | some e => rw [hv] at h; simp at h
  | none =>
    rw [hv] at h
    obtain ⟨hc0, hcne, hs, hnone⟩ := createShortUrlLoop_zero_ok _ _ _ _ _ _ h
    subst hc0
    have hval := saveShortUrl_ok_valid hs
    rcases saveShortUrl_cases (cands 0) (jsTrim url) (some (jsTrim uid)) store
      with ⟨m, hx⟩ | hx | ⟨hx, -⟩
    · rw [hx] at hs; simp at hs
    · rw [hx] at hs; simp at hs
    · rw [hx] at hs
      simp only [Prod.mk.injEq, Except.ok.injEq] at hs
      refine ⟨rfl, hval.1, ?_, ?_, hnone⟩
      · have h2 := hval.2
        rwa [jsTrim_idem] at h2
      · rw [← hs.2]
        simp [jsTrim_idem]

/-! ### Characterization of the atomic find-and-increment -/

theorem findOneAndUpdateClicks_of_not_mem (code : String)
    (store : ShortUrlStore) (h : ∀ r ∈ store, r.short_url ≠ code) :
    findOneAndUpdateClicks code store = (none, store) := by
  induction store with
  | nil => rfl
  | cons x rs ih =>
    have hx : x.short_url ≠ code := h x (by simp)
    have hrest : ∀ r ∈ rs, r.short_url ≠ code := fun r hr => h r (by simp [hr])
    simp [findOneAndUpdateClicks, hx, ih hrest]

theorem findOneAndUpdateClicks_first_match (code : String)
    (pre : ShortUrlStore) (r : ShortUrlRecord) (suf : ShortUrlStore)
    (hpre : ∀ x ∈ pre, x.short_url ≠ code) (hr : r.short_url = code) :
    findOneAndUpdateClicks code (pre ++ r :: suf) =
      (some { r with clicks := r.clicks + 1 },
       pre ++ { r with clicks := r.clicks + 1 } :: suf) := by
  induction pre with
  | nil => simp [findOneAndUpdateClicks, hr]
  | cons x p ih =>
    have hx : x.short_url ≠ code := hpre x (by simp)
    have hrest : ∀ y ∈ p, y.short_url ≠ code := fun y hy => hpre y (by simp [hy])
    simp [findOneAndUpdateClicks, hx, ih hrest]

theorem findOneAndUpdateClicks_some_inv (code : String) :
    ∀ (store : ShortUrlStore) (r' : ShortUrlRecord) (store' : ShortUrlStore),
    findOneAndUpdateClicks code store = (some r', store') →
    ∃ pre r suf,
      store = pre ++ r :: suf ∧
      (∀ x ∈ pre, x.short_url ≠ code) ∧
      r.short_url = code ∧
      r' = { r with clicks := r.clicks + 1 } ∧
      store' = pre ++ r' :: suf := by
  intro store
  induction store with
  | nil =>
    intro r' store' h
    simp [findOneAndUpdateClicks] at h
  | cons x rs ih =>
    intro r' store' h
    by_cases hx : x.short_url = code
    · simp only [findOneAndUpdateClicks, if_pos hx] at h
      simp only [Prod.mk.injEq, Option.some.injEq] at h
      refine ⟨[], x, rs, rfl, by simp, hx, h.1.symm, ?_⟩
      rw [← h.2, h.1]
      rfl
    · simp only [findOneAndUpdateClicks, if_neg hx] at h
      rcases hrec : findOneAndUpdateClicks code rs with ⟨res, rs'⟩
      rw [hrec] at h
      simp only [Prod.mk.injEq] at h
      obtain ⟨pre, r, suf, heq, hpre, hr, hr', hst⟩ :=
        ih r' rs' (by rw [hrec, h.1])
      refine ⟨x :: pre, r, suf, by rw [heq]; rfl, ?_, hr, hr', ?_⟩
      · intro y hy
        rcases List.mem_cons.mp hy with rfl | hy'
        · exact hx
        · exact hpre y hy'
      · rw [← h.2, hst]
        rfl

/-- Inversion for a successful hit of `getShortUrl`: the returned record
has a truthy `full_url` and comes from the single find-and-increment. -/
theorem getShortUrl_ok_some_inv {code : String} {store store' : ShortUrlStore}
    {url : ShortUrlRecord}
    (h : getShortUrl code store = (.ok (some url), store')) :
    url.full_url ≠ "" ∧
    findOneAndUpdateClicks (jsTrim code) store = (some url, store') := by
  unfold getShortUrl at h
  by_cases hc : jsTrim code = ""
  · rw [if_pos hc] at h
    simp at h
  · rw [if_neg hc] at h
    rcases hfind : findOneAndUpdateClicks (jsTrim code) store with ⟨res, st⟩
    rw [hfind] at h
    cases res with
    | none => simp at h
    | some u =>
      by_cases hfu : u.full_url = ""
      · simp only [if_pos hfu] at h
        simp at h
      · simp only [if_neg hfu] at h
        simp only [Prod.mk.injEq, Except.ok.injEq, Option.some.injEq] at h
        obtain ⟨rfl, rfl⟩ := h
        exact ⟨hfu, rfl⟩

/-- A miss of `getShortUrl` returns `null` and leaves the store as-is. -/
theorem getShortUrl_miss (code : String) (store : ShortUrlStore)
    (hc : jsTrim code ≠ "") (h : ∀ x ∈ store, x.short_url ≠ jsTrim code) :
    getShortUrl code store = (.ok none, store) := by
  unfold getShortUrl
  rw [if_neg hc, findOneAndUpdateClicks_of_not_mem _ _ h]

/-! ### Claim theorems -/

/-- C1 (code_bug): the spec says the create operation retries on a
uniqueness violation up to 3 attempts and only then fails with the
exhaustion condition.  In the code, `saveShortUrl` wraps Mongo's
`code: 11000` duplicate-key error into a `ConflictError` that carries no
`code` property, so the service's `error.code === 11000` retry test never
fires: on the failing input below the first candidate collides, the
service gives up immediately with `Short URL already exists` without ever
trying the second candidate, and (second conjunct) the exhaustion
`ConflictError` is unreachable for every input. -/
theorem C1_retry_loop_is_dead :
    (createShortUrlServiceWithUserId
        (fun n => if n = 0 then "abc1234" else "fresh11")
        "https://example.com" "u1"
        [⟨"https://old.com", "abc1234", 0, some "u0"⟩] =
      (.error (.ConflictError "Short URL already exists"),
       [⟨"https://old.com", "abc1234", 0, some "u0"⟩])) ∧
    ∀ (cands : Nat → String) (url uid : String) (store : ShortUrlStore),
      (createShortUrlServiceWithUserId cands url uid store).1 ≠
        .error (.ConflictError
          "Unable to generate unique short URL after multiple attempts") := by
  constructor
  · rfl
  · intro cands url uid store
    unfold createShortUrlServiceWithUserId
    cases hv : validateServiceInputs url (some uid) with
    | some e =>
      obtain ⟨m, rfl⟩ := validateServiceInputs_badRequest hv
      simp
    | none => exact createShortUrlLoop_zero_not_exhausted cands url uid store

/-- C2 (confirmed): the redirect lookup is the single find-and-increment
operation `findOneAndUpdateClicks`: a hit increments the matched record's
`clicks` by exactly 1 and returns the updated record in that one
operation; a miss returns nothing, leaves the store unchanged, and the
HTTP layer answers 404. -/
theorem C2_lookup_increments_or_404 (code : String) (store : ShortUrlStore)
    (hcode : jsTrim code ≠ "") :
    (∀ pre r suf,
      store = pre ++ r :: suf →
      (∀ x ∈ pre, x.short_url ≠ jsTrim code) →
      r.short_url = jsTrim code →
      r.full_url ≠ "" →
      getShortUrl code store =
        (.ok (some { r with clicks := r.clicks + 1 }),
         pre ++ { r with clicks := r.clicks + 1 } :: suf)) ∧
    ((∀ x ∈ store, x.short_url ≠ jsTrim code) →
      getShortUrl code store = (.ok none, store) ∧
      redirectFromShortUrl code store =
        ({ status := 404, headers := [], location := none,
           message := some "Short URL not found" }, store)) := by
  constructor
  · intro pre r suf heq hpre hr hfu
    subst heq
    unfold getShortUrl
    rw [if_neg hcode, findOneAndUpdateClicks_first_match _ _ _ _ hpre hr]
    simp only [if_neg hfu]
  · intro hmiss
    have h1 := getShortUrl_miss code store hcode hmiss
    refine ⟨h1, ?_⟩
    unfold redirectFromShortUrl
    rw [if_neg (ne_empty_of_jsTrim_ne_empty hcode), if_neg hcode]
    have h2 : getShortUrl (jsTrim code) store = (.ok none, store) := by
      apply getShortUrl_miss
      · rw [jsTrim_idem]; exact hcode
      · rw [jsTrim_idem]; exact hmiss
    rw [h2]
    rfl

/-- C2 witness: a store holding one link with code `c1`; the lookup of
`" c1 "` (trimming to `c1`) bumps its clicks from 4 to 5 and returns the
updated record, and the lookup of `nope` misses, changes nothing, and the
redirect handler answers 404. -/
theorem C2_lookup_increments_or_404_witness :
    getShortUrl " c1 " [⟨"https://e.com", "c1", 4, none⟩] =
      (.ok (some ⟨"https://e.com", "c1", 5, none⟩),
       [⟨"https://e.com", "c1", 5, none⟩]) ∧
    getShortUrl "nope" [⟨"https://e.com", "c1", 4, none⟩] =
      (.ok none, [⟨"https://e.com", "c1", 4, none⟩]) ∧
    redirectFromShortUrl "nope" [⟨"https://e.com", "c1", 4, none⟩] =
      ({ status := 404, headers := [], location := none,
         message := some "Short URL not found" },
       [⟨"https://e.com", "c1", 4, none⟩]) := by
  have h1 := (C2_lookup_increments_or_404 " c1 "
      [⟨"https://e.com", "c1", 4, none⟩] (by decide)).1
    [] ⟨"https://e.com", "c1", 4, none⟩ [] rfl (by simp) (by decide) (by decide)
  have h2 := (C2_lookup_increments_or_404 "nope"
      [⟨"https://e.com", "c1", 4, none⟩] (by decide)).2 (by decide)
  exact ⟨h1, h2.1, h2.2⟩

/-- C3 (confirmed): every visit whose lookup finds a record is answered
with HTTP 302 (not 301) redirecting to that record's `full_url`, carrying
`Cache-Control: no-cache, no-store, must-revalidate`, `Pragma: no-cache`
and `Expires: 0`. -/
theorem C3_redirect_302_no_cache (id : String)
    (store store' : ShortUrlStore) (url : ShortUrlRecord)
    (hid : jsTrim id ≠ "")
    (h : getShortUrl (jsTrim id) store = (.ok (some url), store')) :
    redirectFromShortUrl id store =
      ({ status := 302,
         headers := [("Cache-Control", "no-cache, no-store, must-revalidate"),
                     ("Pragma", "no-cache"),
                     ("Expires", "0")],
         location := some url.full_url,
         message := none }, store') := by
  have hfu := (getShortUrl_ok_some_inv h).1
  unfold redirectFromShortUrl
  rw [if_neg (ne_empty_of_jsTrim_ne_empty hid), if_neg hid, h]
  simp only [if_neg hfu]

/-- C3 witness: visiting `c1` against a one-record store yields the 302
with the three cache-disabling headers. -/
theorem C3_redirect_302_no_cache_witness :
    redirectFromShortUrl "c1" [⟨"https://e.com/x", "c1", 0, none⟩] =
      ({ status := 302,
         headers := [("Cache-Control", "no-cache, no-store, must-revalidate"),
                     ("Pragma", "no-cache"),
                     ("Expires", "0")],
         location := some "https://e.com/x",
         message := none },
       [⟨"https://e.com/x", "c1", 1, none⟩]) := by
  exact C3_redirect_302_no_cache "c1" [⟨"https://e.com/x", "c1", 0, none⟩]
    [⟨"https://e.com/x", "c1", 1, none⟩] ⟨"https://e.com/x", "c1", 1, none⟩
    (by decide) (by rfl)

/-- C9 (confirmed): a redirect hit changes only the `clicks` field of the
matched record — its `full_url`, `short_url` and `user` are unchanged,
and every other record of the store is untouched. -/
theorem C9_lookup_modifies_only_clicks (code : String)
    (store store' : ShortUrlStore) (r' : ShortUrlRecord)
    (h : getShortUrl code store = (.ok (some r'), store')) :
    ∃ pre r suf,
      store = pre ++ r :: suf ∧
      store' = pre ++ { r with clicks := r.clicks + 1 } :: suf ∧
      r'.full_url = r.full_url ∧ r'.short_url = r.short_url ∧
      r'.user = r.user ∧ r'.clicks = r.clicks + 1 := by
  obtain ⟨hfu, hfind⟩ := getShortUrl_ok_some_inv h
  obtain ⟨pre, r, suf, heq, hpre, hr, hr', hst⟩ :=
    findOneAndUpdateClicks_some_inv _ _ _ _ hfind
  exact ⟨pre, r, suf, heq, by rw [hst, hr'], by rw [hr'], by rw [hr'],
    by rw [hr'], by rw [hr']⟩

/-- C9 witness: in a two-record store, visiting `c2` bumps only that
record's clicks; the other record and all other fields are unchanged. -/
theorem C9_lookup_modifies_only_clicks_witness :
    ∃ pre r suf,
      ([⟨"https://a.com", "c1", 7, some "u1"⟩,
        ⟨"https://b.com", "c2", 0, some "u2"⟩] : ShortUrlStore) =
        pre ++ r :: suf ∧
      ([⟨"https://a.com", "c1", 7, some "u1"⟩,
        ⟨"https://b.com", "c2", 1, some "u2"⟩] : ShortUrlStore) =
        pre ++ { r with clicks := r.clicks + 1 } :: suf ∧
      (⟨"https://b.com", "c2", 1, some "u2"⟩ : ShortUrlRecord).full_url = r.full_url ∧
      (⟨"https://b.com", "c2", 1, some "u2"⟩ : ShortUrlRecord).short_url = r.short_url ∧
      (⟨"https://b.com", "c2", 1, some "u2"⟩ : ShortUrlRecord).user = r.user ∧
      (⟨"https://b.com", "c2", 1, some "u2"⟩ : ShortUrlRecord).clicks = r.clicks + 1 :=
  C9_lookup_modifies_only_clicks "c2"
    [⟨"https://a.com", "c1", 7, some "u1"⟩, ⟨"https://b.com", "c2", 0, some "u2"⟩]
    [⟨"https://a.com", "c1", 7, some "u1"⟩, ⟨"https://b.com", "c2", 1, some "u2"⟩]
    ⟨"https://b.com", "c2", 1, some "u2"⟩ (by rfl)

/-- C4 (confirmed): when the create operation succeeds with code `c`, the
store gains exactly one record mapping the trimmed candidate to the
trimmed original URL with `clicks = 0`, and the subsequent redirect
lookup of `c` returns that record with the trimmed original URL as target
and `clicks` bumped from 0 to 1. -/
theorem C4_create_then_lookup_roundtrip (cands : Nat → String)
    (u uid : String) (store store₂ : ShortUrlStore) (c : String)
    (h : createShortUrlServiceWithUserId cands u uid store = (.ok c, store₂)) :
    store₂ = store ++ [⟨jsTrim u, jsTrim c, 0, some (jsTrim uid)⟩] ∧
    getShortUrl c store₂ =
      (.ok (some ⟨jsTrim u, jsTrim c, 1, some (jsTrim uid)⟩),
       store ++ [⟨jsTrim u, jsTrim c, 1, some (jsTrim uid)⟩]) := by
  obtain ⟨hc0, hcne, hune, hst, hnone⟩ := createShortUrlServiceWithUserId_ok h
  refine ⟨hst, ?_⟩
  rw [hst]
  unfold getShortUrl
  rw [if_neg hcne]
  have hfind := findOneAndUpdateClicks_first_match (jsTrim c) store
    ⟨jsTrim u, jsTrim c, 0, some (jsTrim uid)⟩ [] hnone rfl
  rw [hfind]
  simp only [if_neg hune]

/-- C4 witness: creating a link for `https://example.com/x` as user `u1`
in an empty store yields code `abcdefg`; the lookup of that code targets
the original URL and bumps clicks from 0 to 1. -/
theorem C4_create_then_lookup_roundtrip_witness :
    ([⟨"https://example.com/x", "abcdefg", 0, some "u1"⟩] : ShortUrlStore) =
      [] ++ [⟨jsTrim "https://example.com/x", jsTrim "abcdefg", 0,
              some (jsTrim "u1")⟩] ∧
    getShortUrl "abcdefg"
        [⟨"https://example.com/x", "abcdefg", 0, some "u1"⟩] =
      (.ok (some ⟨jsTrim "https://example.com/x", jsTrim "abcdefg", 1,
                  some (jsTrim "u1")⟩),
       [] ++ [⟨jsTrim "https://example.com/x", jsTrim "abcdefg", 1,
               some (jsTrim "u1")⟩]) :=
  C4_create_then_lookup_roundtrip (fun _ => "abcdefg")
    "https://example.com/x" "u1" []
    [⟨"https://example.com/x", "abcdefg", 0, some "u1"⟩] "abcdefg" (by rfl)

/-- C8 (code_bug): the user-links listing is claimed to order by creation
time and return each record's creation timestamp, but the ShortLink
schema stores no `createdAt` at all, so the service's
`url.createdAt || url.created_at || new Date().toISOString()` always
returns the time of the listing request: for every value of `now`, the
entry reported for the stored record carries `createdAt = now`. -/
theorem C8_createdAt_is_query_time :
    ∀ now : String,
      getUserUrlsService none now "u1"
          [⟨"https://e.com", "c1", 0, some "u1"⟩,
           ⟨"https://f.com", "c2", 2, some "u2"⟩] =
        (.ok [⟨"http://localhost:3000/c1", "https://e.com", "c1", 0, now⟩],
         [⟨"https://e.com", "c1", 0, some "u1"⟩,
          ⟨"https://f.com", "c2", 2, some "u2"⟩]) := by
  intro now
  rfl

theorem jsStartsWith_append_bearer (t : String) :
    jsStartsWith ("Bearer " ++ t) "Bearer " = true := by
  cases t with
  | mk l =>
    simp [jsStartsWith, List.isPrefixOf_iff_prefix]

theorem jsSlice7_bearer (t : String) : jsSlice 7 ("Bearer " ++ t) = t := by
  cases t with
  | mk l =>
    show String.mk (List.drop 7 ("Bearer ".data ++ l)) = ⟨l⟩
    rw [List.drop_left' (by rfl)]

theorem bearer_append_ne_empty (t : String) : ("Bearer " ++ t) ≠ "" := by
  cases t with
  | mk l =>
    intro h
    have hdata := congrArg String.data h
    simp at hdata

/-- C10 (confirmed): the authentication gate uses the Authorization
header verbatim when it lacks the `Bearer ` prefix, strips the prefix
when present, and falls back to the `token` cookie when the header is
absent — and for the same underlying token value the gate's outcome
(verification result and attached identity) is identical in all three
presentation forms. -/
theorem C10_token_presentation_forms
    (verifyTok : String → Except JsError DecodedToken) (users : UserStore)
    (t : String) (ht : t ≠ "") (hb : jsStartsWith t "Bearer " = false) :
    authMiddleware verifyTok users (some ("Bearer " ++ t)) none =
      authMiddleware verifyTok users (some t) none ∧
    authMiddleware verifyTok users (some t) none =
      authMiddleware verifyTok users none (some t) := by
  constructor
  · unfold authMiddleware
    simp only [jsOrString, if_neg (bearer_append_ne_empty t), if_neg ht,
      jsStartsWith_append_bearer, jsSlice7_bearer, hb, if_true,
      Bool.false_eq_true, if_false]
  · unfold authMiddleware
    simp only [jsOrString, if_neg ht]

/-- C10 witness: the token `tok123` behaves identically as a bare header,
a `Bearer `-prefixed header, and a cookie. -/
theorem C10_token_presentation_forms_witness :
    (authMiddleware (fun s => .error (.JsGenericError s)) []
        (some ("Bearer " ++ "tok123")) none =
      authMiddleware (fun s => .error (.JsGenericError s)) []
        (some "tok123") none) ∧
    (authMiddleware (fun s => .error (.JsGenericError s)) []
        (some "tok123") none =
      authMiddleware (fun s => .error (.JsGenericError s)) []
        none (some "tok123")) :=
  C10_token_presentation_forms (fun s => .error (.JsGenericError s)) []
    "tok123" (by decide) (by decide)

/-- C6 (confirmed): a login against a nonexistent normalized email and a
login against an existing email with a failing password comparison
produce the identical controller response — the same generic message
`Invalid email or password` with HTTP 401 `INVALID_CREDENTIALS` — so the
two causes are indistinguishable to the caller. -/
theorem C6_login_failures_indistinguishable
    (compare : String → String → Bool) (sign : TokenPayload → String)
    (now₁ now₂ : String) (users : UserStore)
    (email₁ pw₁ email₂ pw₂ : String) (u : UserRecord)
    (h₁t : jsTrim email₁ ≠ "") (h₁p : pw₁ ≠ "")
    (h₁r : emailRegexTest (jsTrim email₁) = true)
    (h₁ : findUserByEmail (jsLower (jsTrim email₁)) users = .ok none)
    (h₂t : jsTrim email₂ ≠ "") (h₂p : pw₂ ≠ "")
    (h₂r : emailRegexTest (jsTrim email₂) = true)
    (h₂ : findUserByEmail (jsLower (jsTrim email₂)) users = .ok (some u))
    (h₂c : compare pw₂ u.password = false) :
    loginUser compare sign now₁ email₁ pw₁ users =
      loginUser compare sign now₂ email₂ pw₂ users ∧
    loginUser compare sign now₁ email₁ pw₁ users =
      .failure 401 "Invalid email or password" "INVALID_CREDENTIALS" := by
  have r1 : loginUserService compare sign now₁ email₁ pw₁ users =
      .error (.BadRequestError "Invalid email or password") := by
    unfold loginUserService
    rw [if_neg h₁t, if_neg h₁p, h₁r, h₁]
    simp
  have r2 : loginUserService compare sign now₂ email₂ pw₂ users =
      .error (.BadRequestError "Invalid email or password") := by
    unfold loginUserService
    rw [if_neg h₂t, if_neg h₂p, h₂r, h₂]
    simp [h₂c]
  unfold loginUser
  rw [r1, r2]
  exact ⟨rfl, rfl⟩

/-- C6 witness: with one stored user `bob@example.com` and a comparison
that rejects the supplied password, the unknown-email run and the
wrong-password run return the same concrete 401 response. -/
theorem C6_login_failures_indistinguishable_witness :
    loginUser (fun _ _ => false) (fun _ => "tok") "T1"
        "alice@example.com" "pw1"
        [⟨"Bob", "bob@example.com", "HASH", "av"⟩] =
      loginUser (fun _ _ => false) (fun _ => "tok") "T2"
        " Bob@Example.com " "pw2"
        [⟨"Bob", "bob@example.com", "HASH", "av"⟩] ∧
    loginUser (fun _ _ => false) (fun _ => "tok") "T1"
        "alice@example.com" "pw1"
        [⟨"Bob", "bob@example.com", "HASH", "av"⟩] =
      .failure 401 "Invalid email or password" "INVALID_CREDENTIALS" :=
  C6_login_failures_indistinguishable (fun _ _ => false) (fun _ => "tok")
    "T1" "T2" [⟨"Bob", "bob@example.com", "HASH", "av"⟩]
    "alice@example.com" "pw1" " Bob@Example.com " "pw2"
    ⟨"Bob", "bob@example.com", "HASH", "av"⟩
    (by decide) (by decide) (by rfl) (by rfl)
    (by decide) (by decide) (by rfl) (by rfl) (by rfl)

/-- C7 (confirmed): registration with an already-taken normalized
(trimmed, lowercased) email fails with HTTP 409 `USER_ALREADY_EXISTS`
and leaves the user store unchanged; a fresh registration stores the
password only as the injected salted hash and answers 201 with the
created user (a record with no password field) plus the signed token. -/
theorem C7_register_duplicate_and_success
    (hash : String → String) (sign : TokenPayload → String)
    (name email password : String) (users : UserStore)
    (hn : jsTrim name ≠ "") (he : jsTrim email ≠ "")
    (hp : 6 ≤ jsLength password)
    (hr : emailRegexTest (jsTrim email) = true)
    (hhash : hash password ≠ "")
    (hsign : sign ⟨jsLower (jsTrim email), jsTrim name⟩ ≠ "") :
    ((∃ u ∈ users, u.email = jsLower (jsTrim email)) →
      registerUser hash sign name email password users =
        (.failure 409 "User with this email already exists"
          "USER_ALREADY_EXISTS", users)) ∧
    ((∀ u ∈ users, u.email ≠ jsLower (jsTrim email)) →
      registerUser hash sign name email password users =
        (.success 201
          { name := jsTrim name
            email := jsLower (jsTrim email)
            avatar := "https://api.dicebear.com/7.x/initials/svg?seed="
              ++ jsTrim name
            token := sign ⟨jsLower (jsTrim email), jsTrim name⟩ }
          "User registered successfully",
         users ++
           [{ name := jsTrim name
              email := jsLower (jsTrim email)
              password := hash password
              avatar := "https://api.dicebear.com/7.x/initials/svg?seed="
                ++ jsTrim name }])) := by
  have hfu : findUserByEmail (jsTrim email) users =
      .ok (users.find? (fun u => u.email = jsLower (jsTrim email))) := by
    unfold findUserByEmail
    rw [jsTrim_idem]
    rw [if_neg he, hr]
    simp
  constructor
  · intro hdup
    cases hfind : users.find? (fun u => u.email = jsLower (jsTrim email)) with
    | none =>
      exfalso
      obtain ⟨u, hu, hmail⟩ := hdup
      have := List.find?_eq_none.mp hfind u hu
      simp [hmail] at this
    | some w =>
      unfold registerUser registerUserService
      rw [if_neg hn, if_neg he, if_neg (not_lt.mpr hp), hr, hfu, hfind]
      simp only [Bool.not_true, Bool.false_eq_true, if_false]
      rfl
  · intro hfresh
    have hfind : users.find? (fun u => u.email = jsLower (jsTrim email)) = none := by
      apply List.find?_eq_none.mpr
      intro u hu
      simp [hfresh u hu]
    have hany : users.any (fun u =>
        u.email = jsLower (jsTrim email)) = false := by
      apply List.any_eq_false.mpr
      intro u hu
      simp [hfresh u hu]
    unfold registerUser registerUserService
    rw [if_neg hn, if_neg he, if_neg (not_lt.mpr hp), hr, hfu, hfind]
    simp only [Bool.not_true, Bool.false_eq_true, if_false]
    rw [if_neg hhash, if_neg hsign]
    unfold mongoSaveUser
    rw [hany]
    simp

/-- C7 witness: registering `Ann` twice — the store already holding the
normalized `ann@example.com` yields the 409, a fresh store yields the 201
with hashed password and token. -/
theorem C7_register_duplicate_and_success_witness :
    (registerUser (fun s => "h-" ++ s) (fun p => "tok-" ++ p.email)
        "Ann" " Ann@Example.com " "secret1"
        [⟨"Ann", "ann@example.com", "h-old", "av"⟩] =
      (.failure 409 "User with this email already exists"
        "USER_ALREADY_EXISTS",
       [⟨"Ann", "ann@example.com", "h-old", "av"⟩])) ∧
    (registerUser (fun s => "h-" ++ s) (fun p => "tok-" ++ p.email)
        "Ann" " Ann@Example.com " "secret1" [] =
      (.success 201
        { name := "Ann", email := "ann@example.com"
          avatar := "https://api.dicebear.com/7.x/initials/svg?seed=Ann"
          token := "tok-ann@example.com" }
        "User registered successfully",
       [{ name := "Ann", email := "ann@example.com"
          password := "h-secret1"
          avatar := "https://api.dicebear.com/7.x/initials/svg?seed=Ann" }])) := by
  constructor
  · exact (C7_register_duplicate_and_success (fun s => "h-" ++ s)
      (fun p => "tok-" ++ p.email) "Ann" " Ann@Example.com " "secret1"
      [⟨"Ann", "ann@example.com", "h-old", "av"⟩]
      (by decide) (by decide) (by decide) (by rfl) (by decide) (by decide)).1
      ⟨⟨"Ann", "ann@example.com", "h-old", "av"⟩, by simp, by rfl⟩
  · exact (C7_register_duplicate_and_success (fun s => "h-" ++ s)
      (fun p => "tok-" ++ p.email) "Ann" " Ann@Example.com " "secret1" []
      (by decide) (by decide) (by decide) (by rfl) (by decide) (by decide)).2
      (by simp)

/-- C5 counterexample: the slug `Admin` satisfies every condition of the
claim as stated — length in `[3,50]`, shape `[a-zA-Z0-9-_]+`, and it is
not a member of the reserved-word set (which holds only lowercase words)
— and no record with that `short_url` exists, yet the operation does not
persist it: the code lowercases the slug before the reserved-word test
and rejects it with an `InvalidArgument` error. -/
theorem C5_counterexample_Admin :
    (3 ≤ jsLength "Admin" ∧ jsLength "Admin" ≤ 50 ∧
      slugRegexTest "Admin" = true ∧
      reservedWords.contains "Admin" = false) ∧
    createCustomShortUrl (fun _ => true) "https://example.com" "Admin"
        "u1" [] =
      (.error (.BadRequestError
        "This custom URL is reserved and cannot be used"), []) :=
  ⟨by decide, by rfl⟩

/-- `jsLength s ≥ 3` forces `s` to be nonempty. -/
theorem ne_empty_of_three_le_jsLength {s : String} (h : 3 ≤ jsLength s) :
    s ≠ "" := by
  intro hs
  rw [hs] at h
  exact absurd h (by decide)

/-- C5 (amended, proved): with a parseable URL and an authenticated
owner, `createCustomShortUrl` fails with an `InvalidArgument`
(`BadRequestError`) and persists nothing unless the trimmed slug has
length in `[3,50]`, matches `[a-zA-Z0-9-_]+` and its lowercase form is
outside the reserved-word list; when the trimmed slug is admissible but a
record with that `short_url` exists it fails with `AlreadyExists`
(`ConflictError`) and persists nothing; otherwise it persists
`{full_url, short_url: slug, user: ownerId}` and returns the slug. -/
theorem C5_custom_slug_admission (urlOk : String → Bool)
    (url slug userId : String) (store : ShortUrlStore)
    (hu0 : url ≠ "") (hu1 : urlOk url = true) (hu2 : jsTrim url ≠ "")
    (hid : userId ≠ "") (hid2 : jsTrim userId ≠ "") :
    (¬ validSlug (jsTrim slug) →
      ∃ m, createCustomShortUrl urlOk url slug userId store =
        (.error (.BadRequestError m), store)) ∧
    (validSlug (jsTrim slug) →
      ((∃ r ∈ store, r.short_url = jsTrim slug) →
        createCustomShortUrl urlOk url slug userId store =
          (.error (.ConflictError ("The custom URL \"" ++ jsTrim slug ++
            "\" is already taken. Please choose a different one.")),
           store)) ∧
      ((∀ r ∈ store, r.short_url ≠ jsTrim slug) →
        createCustomShortUrl urlOk url slug userId store =
          (.ok (jsTrim slug),
           store ++ [⟨jsTrim url, jsTrim slug, 0, some (jsTrim userId)⟩]))) := by
  have hvalidUrl : validateUrl urlOk url = none := by
    unfold validateUrl
    rw [if_neg hu0, hu1]
    simp
  have hsvc : validateServiceInputs url (some userId) = none := by
    unfold validateServiceInputs
    rw [if_neg hu0, if_neg hu2]
    exact if_neg hid2
  constructor
  · intro hinv
    unfold createCustomShortUrl
    rw [hvalidUrl]
    simp only []
    by_cases hslug0 : slug = ""
    · rw [if_pos hslug0]
      exact ⟨_, rfl⟩
    · rw [if_neg hslug0]
      by_cases hlen : jsLength (jsTrim slug) < 3 ∨ 50 < jsLength (jsTrim slug)
      · rw [if_pos hlen]
        exact ⟨_, rfl⟩
      · rw [if_neg hlen]
        push_neg at hlen
        by_cases hreg : slugRegexTest (jsTrim slug) = true
        · rw [hreg]
          simp only [Bool.not_true, Bool.false_eq_true, if_false]
          by_cases hres : reservedWords.contains (jsLower (jsTrim slug)) = true
          · rw [if_pos hres]
            exact ⟨_, rfl⟩
          · exfalso
            exact hinv ⟨hlen.1, hlen.2, hreg, Bool.eq_false_iff.mpr hres⟩
        · rw [Bool.eq_false_iff.mpr hreg]
          simp only [Bool.not_false, if_true]
          exact ⟨_, rfl⟩
  · intro hv
    obtain ⟨hlen3, hlen50, hreg, hres⟩ := hv
    have hslugne : jsTrim slug ≠ "" := ne_empty_of_three_le_jsLength hlen3
    have hslug0 : slug ≠ "" := ne_empty_of_jsTrim_ne_empty hslugne
    constructor
    · intro hex
      unfold createCustomShortUrl
      rw [hvalidUrl]
      simp only []
      rw [if_neg hslug0,
        if_neg (by push_neg; exact ⟨hlen3, hlen50⟩), hreg]
      simp only [Bool.not_true, Bool.false_eq_true, if_false]
      rw [if_neg (by rw [hres]; exact Bool.false_ne_true), if_neg hid]
      unfold createCustomShortUrlService
      rw [hsvc]
      simp only []
      rw [jsTrim_idem, if_neg hslugne, hreg]
      simp only [Bool.not_true, Bool.false_eq_true, if_false]
      rw [if_neg (by push_neg; exact ⟨hlen3, hlen50⟩)]
      have hany : store.any (fun r => r.short_url = jsTrim slug) = true := by
        rw [List.any_eq_true]
        obtain ⟨r, hr, hr2⟩ := hex
        exact ⟨r, hr, by simp [hr2]⟩
      rw [if_pos hany]
    · intro hnone
      unfold createCustomShortUrl
      rw [hvalidUrl]
      simp only []
      rw [if_neg hslug0,
        if_neg (by push_neg; exact ⟨hlen3, hlen50⟩), hreg]
      simp only [Bool.not_true, Bool.false_eq_true, if_false]
      rw [if_neg (by rw [hres]; exact Bool.false_ne_true), if_neg hid]
      unfold createCustomShortUrlService
      rw [hsvc]
      simp only []
      rw [jsTrim_idem, if_neg hslugne, hreg]
      simp only [Bool.not_true, Bool.false_eq_true, if_false]
      rw [if_neg (by push_neg; exact ⟨hlen3, hlen50⟩)]
      have hany : store.any (fun r => r.short_url = jsTrim slug) = false := by
        rw [List.any_eq_false]
        intro r hr
        simp [hnone r hr]
      rw [if_neg (by rw [hany]; exact Bool.false_ne_true)]
      unfold saveShortUrl
      have hsave : validateSaveInputs (jsTrim slug) (jsTrim url)
          (some userId) = none := by
        unfold validateSaveInputs
        rw [jsTrim_idem, if_neg hslugne, jsTrim_idem, if_neg hu2]
        exact if_neg hid2
      rw [hsave]
      simp only []
      unfold mongoSaveShortUrl
      simp only [jsTrim_idem]
      rw [hany]
      simp

/-- C5 witness: a too-short slug is rejected with `InvalidArgument`; a
taken slug is rejected with `AlreadyExists` and persists nothing; an
admissible slug (here with surrounding whitespace trimmed away) is
persisted and returned. -/
theorem C5_custom_slug_admission_witness :
    (∃ m, createCustomShortUrl (fun _ => true) "https://example.com"
        "ab" "u1" [] = (.error (.BadRequestError m), [])) ∧
    createCustomShortUrl (fun _ => true) "https://example.com" "my-slug"
        "u1" [⟨"https://old.com", "my-slug", 2, some "u9"⟩] =
      (.error (.ConflictError
        "The custom URL \"my-slug\" is already taken. Please choose a different one."),
       [⟨"https://old.com", "my-slug", 2, some "u9"⟩]) ∧
    createCustomShortUrl (fun _ => true) "https://example.com"
        " my-slug " "u1" [] =
      (.ok "my-slug",
       [⟨"https://example.com", "my-slug", 0, some "u1"⟩]) := by
  refine ⟨?_, ?_, ?_⟩
  · exact (C5_custom_slug_admission (fun _ => true) "https://example.com"
      "ab" "u1" [] (by decide) rfl (by decide) (by decide) (by decide)).1
      (by decide)
  · exact ((C5_custom_slug_admission (fun _ => true) "https://example.com"
      "my-slug" "u1" [⟨"https://old.com", "my-slug", 2, some "u9"⟩]
      (by decide) rfl (by decide) (by decide) (by decide)).2 (by decide)).1
      ⟨⟨"https://old.com", "my-slug", 2, some "u9"⟩, by simp, by decide⟩
  · exact ((C5_custom_slug_admission (fun _ => true) "https://example.com"
      " my-slug " "u1" [] (by decide) rfl (by decide) (by decide)
      (by decide)).2 (by decide)).2 (by decide)

end UrlShortener
